import Mathlib

/-!
Verification of the personal-assistant-agents repository (TypeScript source)
against its natural-language specification.

The repository contains two variants of the same design:
* a monolithic LangGraph program (supervisor node with oracle-driven routing,
  ReAct tool-use loops for the research and Reddit agents), and
* a modular variant (`src/types.ts`, `src/agents/*`, `src/tools/*`,
  `src/index.ts`) with a `router` function keyed on
  `agentState.taskCompleted` / `agentState.currentAgent`.

Below, every definition is a shallow embedding of the corresponding
TypeScript function.  External effects are made explicit:
* calls to the language-model oracle become `Except Unit _` parameters
  (`.error ()` models a thrown exception / rejected promise),
* a successful oracle call followed by a failed JSON extraction is modelled
  by `Except.ok none` where an `Option` payload is used,
* `Date.now()` / `new Date()` become an explicit `now : Nat` parameter,
* the module-level mutable feature-request queue becomes an explicit
  argument and result.
-/

namespace PersonalAssistantAgents

/-- `Message.role` union from `src/types.ts`. -/
inductive Role where
  | user
  | assistant
  | system
  | agent
deriving DecidableEq, Repr

/-- `Message` from `src/types.ts`: role, content, optional agentName. -/
structure Message where
  role : Role
  content : String
  agentName : Option String := none
deriving DecidableEq, Repr

/-- `FeatureRequest` from `src/types.ts`; `timestamp : Date` is modelled as
epoch milliseconds. -/
structure FeatureRequest where
  title : String
  description : String
  userGoal : String
  exampleUseCase : String
  timestamp : Nat
deriving DecidableEq, Repr

/-- `ResearchResult` from `src/types.ts`. -/
structure ResearchResult where
  question : String
  answer : String
  sources : List String
deriving DecidableEq, Repr

/-- Sentiment union from `src/types.ts` (`RedditSummary.sentiment`). -/
inductive Sentiment where
  | positive
  | negative
  | neutral
  | mixed
deriving DecidableEq, Repr

/-- `RedditPost` from `src/types.ts` (the summary-side type). -/
structure RedditPostSummary where
  title : String
  url : String
  upvotes : Int
  commentCount : Int
  summary : String
deriving DecidableEq, Repr

/-- `RedditSummary` from `src/types.ts`. -/
structure RedditSummary where
  topic : String
  sentiment : Sentiment
  mainTopics : List String
  topPosts : List RedditPostSummary
deriving DecidableEq, Repr

/-- `AgentState` from `src/types.ts`. -/
structure AgentState where
  currentAgent : String
  taskCompleted : Bool
  featureRequests : List FeatureRequest
  researchResults : Option ResearchResult := none
  redditSummary : Option RedditSummary := none
deriving DecidableEq, Repr

/-- `GraphState` from `src/types.ts`: conversation messages plus agent state. -/
structure GraphState where
  messages : List Message
  agentState : AgentState
deriving DecidableEq, Repr

/-- `createInitialState` from `src/utils/helpers.ts`. -/
def createInitialState : GraphState :=
  { messages :=
      [{ role := Role.system
         content := "You are a helpful personal assistant that can handle various tasks through specialized agents." }]
    agentState :=
      { currentAgent := "PersonalAssistant"
        taskCompleted := false
        featureRequests := [] } }

/-- `router` from `src/index.ts`: if the task is completed return to the
Personal Assistant (the supervisor), otherwise route to
`agentState.currentAgent`. -/
def router (state : GraphState) : String :=
  if state.agentState.taskCompleted then "PersonalAssistant"
  else state.agentState.currentAgent

/-- A routing-table target: either a named node or the `END` terminal. -/
inductive NextNode where
  | node (name : String)
  | terminal
deriving DecidableEq, Repr

/-- The conditional-edge map attached to the `PersonalAssistant` node in
`buildAgentGraph` (`src/index.ts`): `PersonalAssistant` maps to `END`, the
three workers map to themselves, and any other key is absent. -/
def personalAssistantEdges (decision : String) : Option NextNode :=
  if decision = "PersonalAssistant" then some NextNode.terminal
  else if decision = "FeatureRequestAgent" then some (NextNode.node "FeatureRequestAgent")
  else if decision = "DeepResearchAgent" then some (NextNode.node "DeepResearchAgent")
  else if decision = "GmeRedditSummaryAgent" then some (NextNode.node "GmeRedditSummaryAgent")
  else none

/-- Membership in the regex class `\s` (the whitespace these pipelines
see). -/
def isSpaceChar (c : Char) : Bool :=
  c == ' ' || c == '\t' || c == '\n' || c == '\r'

/-- JS `String.prototype.trim`: strip leading and trailing whitespace. -/
def jsTrim (s : String) : String :=
  String.mk
    (((s.data.dropWhile fun c => isSpaceChar c).reverse.dropWhile
        fun c => isSpaceChar c).reverse)

/-- `getRoutingMessage` from `src/agents/personalAssistant.ts`. -/
def getRoutingMessage (agentName : String) (userMessage : String) : String :=
  if agentName = "FeatureRequestAgent" then
    "I understand you have a feature idea or suggestion. Let me help document that for you."
  else if agentName = "DeepResearchAgent" then
    "That\x27s an interesting question that requires some research. Let me dig into that for you."
  else if agentName = "GmeRedditSummaryAgent" then
    "I\x27ll gather the latest information about GME from Reddit for you."
  else
    "How can I assist you today?"

/-- `personalAssistantAgent` from `src/agents/personalAssistant.ts`.
The oracle call (`llm.invoke`) is abstracted by `oracle : Except Unit String`:
`.ok content` is the model response text, `.error ()` a thrown error
(the `catch` branch). -/
def personalAssistantAgent (state : GraphState) (oracle : Except Unit String) :
    GraphState :=
  match (state.messages.filter fun m => m.role == Role.user).getLast? with
  | none =>
      { messages := state.messages ++
          [{ role := Role.assistant
             content := "Hello! I\x27m your personal assistant. How can I help you today?"
             agentName := some "PersonalAssistant" }]
        agentState :=
          { state.agentState with
              currentAgent := "PersonalAssistant"
              taskCompleted := false } }
  | some latestMessage =>
      match oracle with
      | Except.ok content =>
          let agentName := jsTrim content
          { messages := state.messages ++
              [{ role := Role.assistant
                 content := getRoutingMessage agentName latestMessage.content
                 agentName := some "PersonalAssistant" }]
            agentState :=
              { state.agentState with
                  currentAgent := agentName
                  taskCompleted := false } }
      | Except.error _ =>
          { messages := state.messages ++
              [{ role := Role.assistant
                 content := "I encountered an issue while processing your request. Please try again."
                 agentName := some "PersonalAssistant" }]
            agentState :=
              { state.agentState with
                  currentAgent := "PersonalAssistant"
                  taskCompleted := false } }

/-- `validNodes` inside `supervisorNode` of the monolithic variant. -/
def validNodes : List String :=
  ["feature_request_agent", "research_agent", "gme_reddit_agent", "FINISH"]

/-- `supervisorNode` of the monolithic variant, restricted to the routing
decision it stores in `nextAgent`: trim the oracle response text and default
to `FINISH` when it is not one of the declared valid node identifiers. -/
def supervisorNode (content : String) : String :=
  if jsTrim content ∈ validNodes then jsTrim content else "FINISH"

/-- The conditional-edge map attached to the `supervisor` node in the
monolithic variant: the three workers map to themselves, `FINISH` maps to
`END`, and any other key is absent. -/
def monoSupervisorEdges (decision : String) : Option NextNode :=
  if decision = "feature_request_agent" then some (NextNode.node "feature_request_agent")
  else if decision = "research_agent" then some (NextNode.node "research_agent")
  else if decision = "gme_reddit_agent" then some (NextNode.node "gme_reddit_agent")
  else if decision = "FINISH" then some NextNode.terminal
  else none

/-! ### Feature-request queue (`src/tools/featureRequestQueue.ts`)

The module-level mutable array `featureRequests` is threaded explicitly. -/

/-- `addFeatureRequest`: `featureRequests.push(request)`. -/
def addFeatureRequest (queue : List FeatureRequest) (request : FeatureRequest) :
    List FeatureRequest :=
  queue ++ [request]

/-- `getAllFeatureRequests`: returns a copy of the queue, `[...featureRequests]`. -/
def getAllFeatureRequests (queue : List FeatureRequest) : List FeatureRequest :=
  queue

/-- The comparator `(a, b) => b.timestamp.getTime() - a.timestamp.getTime()`
as an ordering relation: descending by timestamp. -/
def tsDesc (a b : FeatureRequest) : Prop :=
  b.timestamp ≤ a.timestamp

instance : DecidableRel tsDesc := fun a b => Nat.decLe b.timestamp a.timestamp

instance : IsTotal FeatureRequest tsDesc :=
  ⟨fun a b => Nat.le_total b.timestamp a.timestamp⟩

instance : IsTrans FeatureRequest tsDesc :=
  ⟨fun _ _ _ hab hbc => Nat.le_trans hbc hab⟩

/-- `getRecentFeatureRequests`: copy, sort descending by timestamp, take
`count` items (JS `Array.prototype.sort` is stable; so is insertion sort). -/
def getRecentFeatureRequests (queue : List FeatureRequest) (count : Nat) :
    List FeatureRequest :=
  (List.insertionSort tsDesc queue).take count

/-- `clearFeatureRequests`: resets the queue to empty. -/
def clearFeatureRequests : List FeatureRequest := []

/-! ### Feature-request worker (`src/agents/featureRequest.ts`) -/

/-- The structured payload the worker asks the oracle for, before the
timestamp is attached (`Omit<FeatureRequest, "timestamp">`). -/
structure FRParsed where
  title : String
  description : String
  userGoal : String
  exampleUseCase : String
deriving DecidableEq, Repr

/-- Result of one `featureRequestAgent` run: the returned `AgentResponse`
plus the feature-request queue after the run. -/
structure FRAgentResult where
  state : GraphState
  queue : List FeatureRequest
deriving DecidableEq, Repr

/-- Reply text of the success branch of `featureRequestAgent`. -/
def frSuccessReply (fr : FeatureRequest) : String :=
  "Thanks for your input! I\x27ve documented your request with the following details:" ++
  "\n              \n              **Title**: " ++ fr.title ++
  "\n              **Description**: " ++ fr.description ++
  "\n              **User Goal**: " ++ fr.userGoal ++
  "\n              **Example Use Case**: " ++ fr.exampleUseCase ++
  "\n              \n              Your request has been added to our feature request queue. Is there anything else you\x27d like to share about this feature?"

/-- Reply text of the JSON-parse-failure branch of `featureRequestAgent`. -/
def frClarificationReply : String :=
  "I had trouble processing your feature request. Could you provide more details about what you\x27re looking for?"

/-- Reply text of the outer error branch of `featureRequestAgent`. -/
def frErrorReply : String :=
  "I encountered an issue while processing your feature request. Please try again."

/-- `featureRequestAgent` from `src/agents/featureRequest.ts`.
The oracle call plus the regex/JSON extraction are abstracted by
`oracle : Except Unit (Option FRParsed)`: `.error ()` is a thrown oracle
error (outer `catch`), `.ok none` a successful oracle call whose content
fails `JSON.parse` (inner `catch (jsonError)`), `.ok (some d)` a parsed
payload.  `new Date()` is the explicit `now`. -/
def featureRequestAgent (state : GraphState) (queue : List FeatureRequest)
    (oracle : Except Unit (Option FRParsed)) (now : Nat) : FRAgentResult :=
  match oracle with
  | Except.ok (some d) =>
      let featureRequest : FeatureRequest :=
        { title := d.title, description := d.description, userGoal := d.userGoal
          exampleUseCase := d.exampleUseCase, timestamp := now }
      { state :=
          { messages := state.messages ++
              [{ role := Role.assistant
                 content := frSuccessReply featureRequest
                 agentName := some "FeatureRequestAgent" }]
            agentState :=
              { state.agentState with
                  featureRequests := state.agentState.featureRequests ++ [featureRequest]
                  taskCompleted := true
                  currentAgent := "PersonalAssistant" } }
        queue := addFeatureRequest queue featureRequest }
  | Except.ok none =>
      { state :=
          { messages := state.messages ++
              [{ role := Role.assistant
                 content := frClarificationReply
                 agentName := some "FeatureRequestAgent" }]
            agentState := { state.agentState with taskCompleted := false } }
        queue := queue }
  | Except.error _ =>
      { state :=
          { messages := state.messages ++
              [{ role := Role.assistant
                 content := frErrorReply
                 agentName := some "FeatureRequestAgent" }]
            agentState := { state.agentState with taskCompleted := false } }
        queue := queue }

/-! ### Research tools (`src/tools/researchTools.ts`) -/

/-- ASCII lower-casing of one character (`String.prototype.toLowerCase` on
the ASCII inputs this pipeline sees). -/
def toLowerAscii (c : Char) : Char :=
  if 'A' ≤ c ∧ c ≤ 'Z' then Char.ofNat (c.toNat + 32) else c

/-- ASCII lower-casing of a string. -/
def toLowerStr (s : String) : String :=
  String.mk (s.data.map toLowerAscii)

/-- Membership in the regex class `\w` = `[A-Za-z0-9_]`. -/
def isWordChar (c : Char) : Bool :=
  ('a' ≤ c && c ≤ 'z') || ('A' ≤ c && c ≤ 'Z') || ('0' ≤ c && c ≤ '9') || c == '_'

/-- `question.toLowerCase().replace(/[^\w\s]/g, "")`: lower-case, then drop
every character that is neither a word character nor whitespace. -/
def cleanQuestion (question : String) : String :=
  String.mk ((question.data.map toLowerAscii).filter fun c => isWordChar c || isSpaceChar c)

/-- `cleaned.split(/\s+/)` restricted to its non-empty results: split into
maximal runs of non-whitespace characters.  (JS also yields an empty first
element on leading whitespace; every consumer filters by `length > 2`, so
empty fragments are unobservable and omitted here.) -/
def splitWsAux : List Char → List Char → List String
  | [], acc => if acc.isEmpty then [] else [String.mk acc.reverse]
  | c :: cs, acc =>
      if isSpaceChar c then
        if acc.isEmpty then splitWsAux cs []
        else String.mk acc.reverse :: splitWsAux cs []
      else splitWsAux cs (c :: acc)

/-- Split a string into whitespace-separated words. -/
def splitWs (s : String) : List String :=
  splitWsAux s.data []

/-- The `stopWords` set. -/
def stopWords : List String :=
  ["the", "a", "an", "and", "in", "on", "at", "of", "to", "for", "with",
   "is", "are", "what", "why", "how", "when", "where", "who"]

/-- The `importantPhrases` list, in source order. -/
def importantPhrases : List String :=
  ["machine learning", "artificial intelligence", "blockchain",
   "climate change", "quantum computing"]

/-- `needle` occurs as a contiguous run at the head of `hay`. -/
def startsWithL : List Char → List Char → Bool
  | _, [] => true
  | [], _ :: _ => false
  | a :: as, b :: bs => a == b && startsWithL as bs

/-- `hay.includes(needle)`: `needle` occurs contiguously somewhere in `hay`. -/
def containsL : List Char → List Char → Bool
  | [], needle => needle.isEmpty
  | hay@(_ :: t), needle => startsWithL hay needle || containsL t needle

/-- First-occurrence order of the distinct words, as produced by filling the
`wordFrequency` object and reading it back with `Object.entries` (insertion
order). -/
def dedupFirst : List String → List String → List String
  | [], _ => []
  | w :: ws, seen =>
      if seen.contains w then dedupFirst ws seen
      else w :: dedupFirst ws (seen ++ [w])

/-- The comparator `(a, b) => b[1] - a[1]` on `(word, count)` entries:
descending by count. -/
def countDesc (a b : String × Nat) : Prop :=
  b.2 ≤ a.2

instance : DecidableRel countDesc := fun a b => Nat.decLe b.2 a.2

/-- `extractKeywords` from `src/tools/researchTools.ts`: clean, split,
filter stop words and short words, return the first matching important
phrase if any, otherwise the three most frequent remaining words
(stable-sorted descending by count, as JS `sort` is stable). -/
def extractKeywords (question : String) : List String :=
  let cleaned := cleanQuestion question
  let words := splitWs cleaned
  let filteredWords := words.filter fun w => !(stopWords.contains w) && w.length > 2
  match importantPhrases.find? (fun p => containsL cleaned.data p.data) with
  | some p => [p]
  | none =>
      let entries := (dedupFirst filteredWords []).map fun w => (w, filteredWords.count w)
      ((List.insertionSort countDesc entries).take 3).map Prod.fst

/-- The `knowledgeBase` map. -/
def knowledgeBase (key : String) : Option (List String) :=
  if key = "blockchain" then some
    ["Blockchain is a distributed ledger technology that enables secure transactions without a central authority.",
     "The first blockchain was created as the underlying technology for Bitcoin by Satoshi Nakamoto in 2008.",
     "Smart contracts are self-executing contracts with the terms directly written into code on blockchain platforms like Ethereum."]
  else if key = "machine learning" then some
    ["Machine learning is a subset of artificial intelligence that focuses on developing systems that learn from data.",
     "Supervised learning involves training models on labeled data, while unsupervised learning works with unlabeled data.",
     "Deep learning uses neural networks with many layers to process complex patterns in large amounts of data."]
  else if key = "climate change" then some
    ["Climate change refers to long-term shifts in temperatures and weather patterns, primarily caused by human activities.",
     "The burning of fossil fuels is a major contributor to greenhouse gas emissions.",
     "Effects include rising sea levels, increased frequency of extreme weather events, and disruption of ecosystems."]
  else none

/-- Step 1 of `performResearch`: for each keyword, push the knowledge-base
entries (prefixed) if the lower-cased keyword is present in the map. -/
def internalResults (question : String) : List String :=
  (extractKeywords question).foldl
    (fun results keyword =>
      match knowledgeBase (toLowerStr keyword) with
      | some entries => results ++ entries.map fun e => "[Internal Knowledge Base] " ++ e
      | none => results)
    []

/-- The two-snippet mock external-API result of step 2 of `performResearch`. -/
def externalPair (keyword : String) : List String :=
  ["[External API] Based on recent research, the topic of " ++ keyword ++ " has seen significant developments in the past year.",
   "[External API] Experts in " ++ keyword ++ " suggest that continued research is necessary to fully understand its implications."]

/-- The generic two-snippet fallback of step 3 of `performResearch`. -/
def genericPair : List String :=
  ["[Research] The research question appears to be outside our current knowledge domain.",
   "[Research] Consider refining the question or exploring more specific aspects of the topic."]

/-- `performResearch` from `src/tools/researchTools.ts`.  The surrounding
`try`/`catch` never fires in this pure embedding (no operation throws). -/
def performResearch (question : String) : List String :=
  let keywords := extractKeywords question
  let results := internalResults question
  let results2 :=
    match keywords with
    | [] => results
    | k :: _ => if results.length = 0 then results ++ externalPair k else results
  if results2.length = 0 then genericPair else results2

/-! ### Reddit API (`src/tools/redditApi.ts`) -/

/-- The API-side `RedditPost` type of `src/tools/redditApi.ts`. -/
structure ApiRedditPost where
  title : String
  url : String
  permalink : String
  author : String
  created_utc : Nat
  upvotes : Int
  commentCount : Int
  selftext : String
deriving DecidableEq, Repr

/-- The five hard-coded mock posts of `getMockRedditPosts`; `Date.now()` is
the explicit `now` (epoch milliseconds), and the long `selftext` bodies are
abbreviated to their identifying head (they are opaque payloads to every
consumer in the repository). -/
def mockRedditPosts (now : Nat) : List ApiRedditPost :=
  [{ title := "GME Q1 Earnings Beat Expectations, Stock Up 8% in After Hours"
     url := "https://reddit.com/r/wallstreetbets/mock1"
     permalink := "/r/wallstreetbets/comments/mock1"
     author := "DiamondHands42069"
     created_utc := now / 1000 - 3600 * 5
     upvotes := 4281, commentCount := 732
     selftext := "GameStop just reported Q1 earnings" },
   { title := "DD: GME\x27s NFT Marketplace Strategy and Future Revenue Projections"
     url := "https://reddit.com/r/Superstonk/mock2"
     permalink := "/r/Superstonk/comments/mock2"
     author := "RoaringKitty22"
     created_utc := now / 1000 - 3600 * 12
     upvotes := 2876, commentCount := 412
     selftext := "I\x27ve analyzed GME\x27s NFT marketplace strategy" },
   { title := "Ryan Cohen Just Purchased Another 100,000 Shares of GME"
     url := "https://reddit.com/r/GME/mock3"
     permalink := "/r/GME/comments/mock3"
     author := "ApeAnalyst"
     created_utc := now / 1000 - 3600 * 8
     upvotes := 3542, commentCount := 621
     selftext := "Breaking news: RC just filed" },
   { title := "GameStop Announces New Partnership with Major Game Publisher"
     url := "https://reddit.com/r/Superstonk/mock4"
     permalink := "/r/Superstonk/comments/mock4"
     author := "GMEtoTheMoon"
     created_utc := now / 1000 - 3600 * 18
     upvotes := 1932, commentCount := 304
     selftext := "GameStop just announced an exclusive partnership" },
   { title := "Technical Analysis: GME Set for Potential Breakout This Week"
     url := "https://reddit.com/r/wallstreetbets/mock5"
     permalink := "/r/wallstreetbets/comments/mock5"
     author := "ChartGuru"
     created_utc := now / 1000 - 3600 * 10
     upvotes := 876, commentCount := 203
     selftext := "Looking at the charts" }]

/-- `post.permalink.split("/")[2]`: the subreddit component of a permalink
(`""` standing for JS `undefined` on malformed permalinks). -/
def permalinkSubreddit (permalink : String) : String :=
  ((permalink.split fun c => c == '/').get? 2).getD ""

/-- `getMockRedditPosts`: filter the mock posts by the requested subreddits
(case-insensitively, via the permalink) unless the list is empty or starts
with the empty string. -/
def getMockRedditPosts (now : Nat) (subreddits : List String) : List ApiRedditPost :=
  if subreddits.length > 0 ∧ subreddits.head? ≠ some "" then
    let subredditSet := subreddits.map toLowerStr
    (mockRedditPosts now).filter fun post =>
      subredditSet.contains (toLowerStr (permalinkSubreddit post.permalink))
  else
    mockRedditPosts now

/-- `fetchRedditPosts` from `src/tools/redditApi.ts`: after a simulated
delay it returns `getMockRedditPosts(subreddits)`; the `timeFrame` argument
is accepted but never used. -/
def fetchRedditPosts (now : Nat) (subreddits : List String) (timeFrame : String) :
    List ApiRedditPost :=
  getMockRedditPosts now subreddits

/-! ### GME Reddit summary worker (`src/agents/gmeRedditSummary.ts`) -/

/-- The focus object the worker asks the oracle for (subreddits, aspects,
time frame). -/
structure Focus where
  subreddits : List String
  aspects : List String
  timeFrame : String
deriving DecidableEq, Repr

/-- One entry of `analysis.topPostsSummaries`. -/
structure AnalysisPost where
  title : String
  summary : String
deriving DecidableEq, Repr

/-- The analysis object the worker asks the oracle for. -/
structure Analysis where
  sentiment : Sentiment
  mainTopics : List String
  summary : String
  topPostsSummaries : List AnalysisPost
deriving DecidableEq, Repr

/-- `analysis.topPostsSummaries[i]?.summary || "No summary available"`:
a missing entry (JS `undefined`) and an empty summary (falsy) both fall back
to the default. -/
def topPostSummaryAt (entries : List AnalysisPost) (i : Nat) : String :=
  match entries.get? i with
  | none => "No summary available"
  | some a => if a.summary = "" then "No summary available" else a.summary

/-- Reply text of the error branch of `gmeRedditSummaryAgent`. -/
def gmeErrorReply : String :=
  "I encountered an issue while fetching the latest GME information from Reddit. This could be due to API rate limits or connectivity issues. Would you like me to try again or focus on a specific aspect?"

/-- `gmeRedditSummaryAgent` from `src/agents/gmeRedditSummary.ts`.
The first oracle call plus the regex/JSON extraction of the focus object is
`focusOracle`; the second call plus extraction of the analysis object is
`analysisOracle`.  `.error ()` on either (a thrown error or unparseable
JSON) lands in the single `catch` branch.  The user-facing summary text is
assembled from the same pieces as the source template. -/
def gmeRedditSummaryAgent (state : GraphState) (now : Nat)
    (focusOracle : Except Unit Focus) (analysisOracle : Except Unit Analysis) :
    GraphState :=
  match focusOracle, analysisOracle with
  | Except.ok focus, Except.ok analysis =>
      let redditPosts := fetchRedditPosts now focus.subreddits focus.timeFrame
      let topPosts : List RedditPostSummary :=
        (redditPosts.take 5).mapIdx fun i post =>
          { title := post.title
            url := post.url
            upvotes := post.upvotes
            commentCount := post.commentCount
            summary := topPostSummaryAt analysis.topPostsSummaries i }
      let redditSummary : RedditSummary :=
        { topic := "GameStop (GME)"
          sentiment := analysis.sentiment
          mainTopics := analysis.mainTopics
          topPosts := topPosts }
      { messages := state.messages ++
          [{ role := Role.assistant
             content := "Here\x27s the latest on GME from Reddit: " ++ analysis.summary
             agentName := some "GmeRedditSummaryAgent" }]
        agentState :=
          { state.agentState with
              redditSummary := some redditSummary
              taskCompleted := true
              currentAgent := "PersonalAssistant" } }
  | _, _ =>
      { messages := state.messages ++
          [{ role := Role.assistant
             content := gmeErrorReply
             agentName := some "GmeRedditSummaryAgent" }]
        agentState := { state.agentState with taskCompleted := false } }

/-! ### Deep research worker (`src/agents/deepResearch.ts`) -/

/-- Reply text of the error branch of `deepResearchAgent`. -/
def researchErrorReply : String :=
  "I encountered an issue while researching your question. Would you mind rephrasing it or providing more context?"

/-- `deepResearchAgent` from `src/agents/deepResearch.ts`.
`questionOracle` abstracts the first oracle call (formulating the research
question), `synthesisOracle` the second (synthesizing the answer from the
sources); `.error ()` on either lands in the `catch` branch.  The sources
come from the embedded `performResearch`. -/
def deepResearchAgent (state : GraphState)
    (questionOracle synthesisOracle : Except Unit String) : GraphState :=
  match questionOracle, synthesisOracle with
  | Except.ok q, Except.ok answer =>
      let researchQuestion := jsTrim q
      let sources := performResearch researchQuestion
      let researchResult : ResearchResult :=
        { question := researchQuestion, answer := answer, sources := sources }
      { messages := state.messages ++
          [{ role := Role.assistant
             content := "Here\x27s what I found regarding \x22" ++ researchQuestion ++ "\x22:\n\n" ++
               answer ++ "\n\nMy research drew from " ++ toString sources.length ++
               " sources. Would you like more details on any specific aspect?"
             agentName := some "DeepResearchAgent" }]
        agentState :=
          { state.agentState with
              researchResults := some researchResult
              taskCompleted := true
              currentAgent := "PersonalAssistant" } }
  | _, _ =>
      { messages := state.messages ++
          [{ role := Role.assistant
             content := researchErrorReply
             agentName := some "DeepResearchAgent" }]
        agentState := { state.agentState with taskCompleted := false } }

/-! ### Executor pieces

`buildAgentGraph` (`src/index.ts`) declares the `messages` channel reducer,
and the monolithic variant wires the research worker into a ReAct loop with
`toolsCondition`. -/

/-- The `messages` channel reducer of `buildAgentGraph`:
`(prev, next) => [...prev, ...next.slice(prev.length)]`. -/
def messagesReducer (prev next : List Message) : List Message :=
  prev ++ next.drop prev.length

/-- A message as seen by the monolithic ReAct loop: only whether it carries
`tool_calls` matters for routing; the payload is opaque text. -/
structure LoopMsg where
  hasToolCalls : Bool
  content : String
deriving DecidableEq, Repr

/-- The nodes of the monolithic research ReAct loop: the agent node, its
tool node, and the supervisor it hands back to (the only exit, besides which
the loop has no other edge). -/
inductive LoopNode where
  | researchAgent
  | researchToolNode
  | supervisor
deriving DecidableEq, Repr

/-- One executor step of the monolithic research loop
(`workflow.addConditionalEdges("research_agent", toolsCondition, ...)` and
`workflow.addEdge("research_tool_node", "research_agent")`):
* at `research_agent`, invoke the oracle, append its response, and follow
  `toolsCondition` — to the tool node if the response has `tool_calls`,
  back to the supervisor otherwise;
* at `research_tool_node`, execute the tool, append its result message, and
  return to the agent node;
* the supervisor is absorbing here (the turn has left the loop). -/
def researchLoopStep (oracle toolExec : List LoopMsg → LoopMsg) :
    LoopNode × List LoopMsg → LoopNode × List LoopMsg
  | (LoopNode.researchAgent, msgs) =>
      let response := oracle msgs
      (if response.hasToolCalls then LoopNode.researchToolNode else LoopNode.supervisor,
       msgs ++ [response])
  | (LoopNode.researchToolNode, msgs) =>
      (LoopNode.researchAgent, msgs ++ [toolExec msgs])
  | (LoopNode.supervisor, msgs) => (LoopNode.supervisor, msgs)

/-- Iterate the research loop for `n` executor steps. -/
def runResearchLoop (oracle toolExec : List LoopMsg → LoopMsg) :
    Nat → LoopNode × List LoopMsg → LoopNode × List LoopMsg
  | 0, c => c
  | n + 1, c => runResearchLoop oracle toolExec n (researchLoopStep oracle toolExec c)

/-- An oracle that requests a tool invocation on every call. -/
def alwaysToolOracle : List LoopMsg → LoopMsg :=
  fun _ => { hasToolCalls := true, content := "tool call" }

/-- A deterministic tool executor returning a plain result message. -/
def constToolExec : List LoopMsg → LoopMsg :=
  fun _ => { hasToolCalls := false, content := "tool result" }

/-! ## Theorems -/

/-- A concrete state whose active worker has reported completion. -/
def stateTaskDone : GraphState :=
  { messages := []
    agentState :=
      { currentAgent := "DeepResearchAgent", taskCompleted := true, featureRequests := [] } }

/-- A concrete state with a pending task routed at the feature worker. -/
def statePending : GraphState :=
  { messages := []
    agentState :=
      { currentAgent := "FeatureRequestAgent", taskCompleted := false, featureRequests := [] } }

/-- A concrete state equal to `statePending` on the fields the router reads,
but with a different message log. -/
def statePendingAlt : GraphState :=
  { messages := [{ role := Role.user, content := "hello", agentName := none }]
    agentState :=
      { currentAgent := "FeatureRequestAgent", taskCompleted := false, featureRequests := [] } }

/-- C1: the supervisor router returns its own identifier `PersonalAssistant`
(mapped to the terminal `END` edge by the executor) whenever
`agentState.taskCompleted` is true, and otherwise returns
`agentState.currentAgent` verbatim. -/
theorem c1_router_decision (s : GraphState) :
    (s.agentState.taskCompleted = true →
      router s = "PersonalAssistant" ∧
      personalAssistantEdges (router s) = some NextNode.terminal) ∧
    (s.agentState.taskCompleted = false → router s = s.agentState.currentAgent) := by
  constructor
  · intro h
    simp [router, h, personalAssistantEdges]
  · intro h
    simp [router, h]

/-- Witness for C1 at two concrete states: one completed, one pending. -/
theorem c1_router_decision_witness :
    (stateTaskDone.agentState.taskCompleted = true ∧
      router stateTaskDone = "PersonalAssistant" ∧
      personalAssistantEdges (router stateTaskDone) = some NextNode.terminal) ∧
    (statePending.agentState.taskCompleted = false ∧
      router statePending = "FeatureRequestAgent") :=
  ⟨⟨rfl, (c1_router_decision stateTaskDone).1 rfl⟩,
   ⟨rfl, (c1_router_decision statePending).2 rfl⟩⟩

/-- C7: the router is a deterministic function of the two state fields it
reads; two states agreeing on `taskCompleted` and `currentAgent` receive the
same next-node decision. -/
theorem c7_router_deterministic (s t : GraphState)
    (hTask : s.agentState.taskCompleted = t.agentState.taskCompleted)
    (hAgent : s.agentState.currentAgent = t.agentState.currentAgent) :
    router s = router t := by
  simp [router, hTask, hAgent]

/-- Witness for C7: two states with the same routing fields but different
message logs route identically. -/
theorem c7_router_deterministic_witness :
    statePending.agentState.taskCompleted = statePendingAlt.agentState.taskCompleted ∧
    statePending.agentState.currentAgent = statePendingAlt.agentState.currentAgent ∧
    router statePending = router statePendingAlt :=
  ⟨rfl, rfl, c7_router_deterministic statePending statePendingAlt rfl rfl⟩

/-- C10: `fetchRedditPosts` ignores its `timeFrame` argument entirely: with
the same clock value and subreddit list, any two time frames produce the
same list of posts. -/
theorem c10_timeframe_independent (now : Nat) (subreddits : List String)
    (t1 t2 : String) :
    fetchRedditPosts now subreddits t1 = fetchRedditPosts now subreddits t2 :=
  rfl

/-- Output agent state `b` equals input agent state `a` on every field
except `taskCompleted`, which is cleared. -/
def onlyTaskCompletedCleared (a b : AgentState) : Prop :=
  b.currentAgent = a.currentAgent ∧
  b.featureRequests = a.featureRequests ∧
  b.researchResults = a.researchResults ∧
  b.redditSummary = a.redditSummary ∧
  b.taskCompleted = false

/-- C9: in every error branch of the deep-research and social-summary
workers (either oracle call failing), the returned `agentState` preserves
`currentAgent`, `featureRequests`, `researchResults` and `redditSummary`
and only sets `taskCompleted := false`; no artifact is merged or
overwritten. -/
theorem c9_error_branch_frame (s : GraphState) (now : Nat) (q : String)
    (synthesisOracle : Except Unit String) (focus : Focus)
    (analysisOracle : Except Unit Analysis) :
    onlyTaskCompletedCleared s.agentState
      (deepResearchAgent s (Except.error ()) synthesisOracle).agentState ∧
    onlyTaskCompletedCleared s.agentState
      (deepResearchAgent s (Except.ok q) (Except.error ())).agentState ∧
    onlyTaskCompletedCleared s.agentState
      (gmeRedditSummaryAgent s now (Except.error ()) analysisOracle).agentState ∧
    onlyTaskCompletedCleared s.agentState
      (gmeRedditSummaryAgent s now (Except.ok focus) (Except.error ())).agentState := by
  refine ⟨?_, ?_, ?_, ?_⟩
  · cases synthesisOracle <;>
      exact ⟨rfl, rfl, rfl, rfl, rfl⟩
  · exact ⟨rfl, rfl, rfl, rfl, rfl⟩
  · cases analysisOracle <;>
      exact ⟨rfl, rfl, rfl, rfl, rfl⟩
  · exact ⟨rfl, rfl, rfl, rfl, rfl⟩

/-- C4: when the oracle call succeeds but its structured output fails to
parse (`Except.ok none`), the feature-capture worker returns a
clarification-seeking assistant reply, clears `taskCompleted`, leaves
`currentAgent` on the worker itself (so the next user turn re-enters it,
bypassing the supervisor), and appends nothing to the feature-request
queue. -/
theorem c4_parse_failure_clarifies (s : GraphState) (queue : List FeatureRequest)
    (now : Nat) (h : s.agentState.currentAgent = "FeatureRequestAgent") :
    (featureRequestAgent s queue (Except.ok none) now).state.messages =
      s.messages ++
        [{ role := Role.assistant
           content := frClarificationReply
           agentName := some "FeatureRequestAgent" }] ∧
    (featureRequestAgent s queue (Except.ok none) now).state.agentState.taskCompleted = false ∧
    (featureRequestAgent s queue (Except.ok none) now).state.agentState.currentAgent =
      "FeatureRequestAgent" ∧
    (featureRequestAgent s queue (Except.ok none) now).queue = queue ∧
    (featureRequestAgent s queue (Except.ok none) now).state.agentState.featureRequests =
      s.agentState.featureRequests :=
  ⟨rfl, rfl, h, rfl, rfl⟩

/-- Witness for C4 at a concrete pending state with an empty queue. -/
theorem c4_parse_failure_clarifies_witness :
    statePending.agentState.currentAgent = "FeatureRequestAgent" ∧
    ((featureRequestAgent statePending [] (Except.ok none) 0).state.messages =
      statePending.messages ++
        [{ role := Role.assistant
           content := frClarificationReply
           agentName := some "FeatureRequestAgent" }] ∧
    (featureRequestAgent statePending [] (Except.ok none) 0).state.agentState.taskCompleted = false ∧
    (featureRequestAgent statePending [] (Except.ok none) 0).state.agentState.currentAgent =
      "FeatureRequestAgent" ∧
    (featureRequestAgent statePending [] (Except.ok none) 0).queue = [] ∧
    (featureRequestAgent statePending [] (Except.ok none) 0).state.agentState.featureRequests =
      statePending.agentState.featureRequests) :=
  ⟨rfl, c4_parse_failure_clarifies statePending [] 0 rfl⟩

/-- C5: every node of the modular graph extends the input message log by
appending exactly one message (so no existing message is edited or removed
and the length is non-decreasing), and the executor's `messages` channel
reducer preserves the previous log as a prefix. -/
theorem c5_messages_append_only (s : GraphState) (queue : List FeatureRequest)
    (paOracle : Except Unit String) (frOracle : Except Unit (Option FRParsed))
    (now : Nat) (questionOracle synthesisOracle : Except Unit String)
    (focusOracle : Except Unit Focus) (analysisOracle : Except Unit Analysis)
    (prev next : List Message) :
    (∃ m, (personalAssistantAgent s paOracle).messages = s.messages ++ [m]) ∧
    (∃ m, (featureRequestAgent s queue frOracle now).state.messages = s.messages ++ [m]) ∧
    (∃ m, (deepResearchAgent s questionOracle synthesisOracle).messages = s.messages ++ [m]) ∧
    (∃ m, (gmeRedditSummaryAgent s now focusOracle analysisOracle).messages = s.messages ++ [m]) ∧
    prev.length ≤ (messagesReducer prev next).length ∧
    (∃ t, messagesReducer prev next = prev ++ t) := by
  refine ⟨?_, ?_, ?_, ?_, ?_, ⟨next.drop prev.length, rfl⟩⟩
  · unfold personalAssistantAgent
    cases hl : (s.messages.filter fun m => m.role == Role.user).getLast? with
    | none => exact ⟨_, rfl⟩
    | some lm => cases paOracle <;> exact ⟨_, rfl⟩
  · cases frOracle with
    | ok o => cases o <;> exact ⟨_, rfl⟩
    | error e => exact ⟨_, rfl⟩
  · cases questionOracle <;> cases synthesisOracle <;> exact ⟨_, rfl⟩
  · cases focusOracle <;> cases analysisOracle <;> exact ⟨_, rfl⟩
  · simp [messagesReducer]

/-- `createInitialState` with one user message pushed, as the handler in
`src/index.ts` builds it before invoking the graph. -/
def stateWithUserHello : GraphState :=
  { createInitialState with
      messages := createInitialState.messages ++
        [{ role := Role.user, content := "hello", agentName := none }] }

/-- C2 counterexample: in the modular variant the oracle text is stored into
`currentAgent` with no validation, and the router hands it on verbatim.
With oracle text `"banana"` the routing step yields the arbitrary string
`"banana"`: it is not a declared node identifier, it is not the
terminal/idle identifier `PersonalAssistant`, and the supervisor edge map
has no entry for it. -/
theorem c2_invalid_text_counterexample :
    router (personalAssistantAgent stateWithUserHello (Except.ok "banana")) = "banana" ∧
    "banana" ∉ ["PersonalAssistant", "FeatureRequestAgent", "DeepResearchAgent",
      "GmeRedditSummaryAgent"] ∧
    personalAssistantEdges "banana" = none ∧
    "banana" ≠ "PersonalAssistant" := by
  refine ⟨?_, by decide, by decide, by decide⟩
  rfl

/-- C2 amended: only the monolithic variant has the fallback: its
`supervisorNode` always produces one of the declared valid node
identifiers, and whenever the trimmed oracle text is not one of them the
decision is `FINISH`, which the supervisor edge map sends to the terminal
`END`.  (The modular variant's `personalAssistantAgent` performs no such
validation, per the counterexample.) -/
theorem c2_supervisor_fallback (content : String) :
    supervisorNode content ∈ validNodes ∧
    (jsTrim content ∉ validNodes →
      supervisorNode content = "FINISH" ∧
      monoSupervisorEdges "FINISH" = some NextNode.terminal) := by
  constructor
  · by_cases h : jsTrim content ∈ validNodes
    · rw [supervisorNode, if_pos h]
      exact h
    · rw [supervisorNode, if_neg h]
      decide
  · intro h
    exact ⟨by rw [supervisorNode, if_neg h], rfl⟩

/-- Witness for C2 (amended) at the invalid oracle text `"banana"`. -/
theorem c2_supervisor_fallback_witness :
    jsTrim "banana" ∉ validNodes ∧
    supervisorNode "banana" = "FINISH" ∧
    monoSupervisorEdges "FINISH" = some NextNode.terminal :=
  ⟨by decide,
   ((c2_supervisor_fallback "banana").2 (by decide)).1,
   ((c2_supervisor_fallback "banana").2 (by decide)).2⟩

/-- C3 counterexample: no iteration cap exists anywhere in the source.
Against an oracle that requests a tool invocation on every call, the
monolithic research worker is still cycling between its agent node and its
tool node after 13 and after 14 executor steps — far past the claimed
documented bound of about 6 — and never produces an apologetic reply or
`taskCompleted = false` (the loop has no such branch, and the monolithic
state has no `taskCompleted` field at all). -/
theorem c3_unbounded_loop_counterexample :
    (runResearchLoop alwaysToolOracle constToolExec 13
        (LoopNode.researchAgent, [])).1 = LoopNode.researchToolNode ∧
    (runResearchLoop alwaysToolOracle constToolExec 14
        (LoopNode.researchAgent, [])).1 = LoopNode.researchAgent := by
  constructor <;> rfl

/-- C3 amended: the tool-use loops impose no iteration cap at all.  For any
oracle that requests another tool invocation on every call, any number of
executor steps started inside the loop leaves control inside the loop: the
research worker never hands back to the supervisor, so no bounded-loop
failure reply is ever produced. -/
theorem c3_no_iteration_cap (oracle toolExec : List LoopMsg → LoopMsg)
    (hOracle : ∀ msgs, (oracle msgs).hasToolCalls = true) :
    ∀ (n : Nat) (c : LoopNode × List LoopMsg), c.1 ≠ LoopNode.supervisor →
      (runResearchLoop oracle toolExec n c).1 ≠ LoopNode.supervisor := by
  intro n
  induction n with
  | zero => exact fun c h => h
  | succ k ih =>
      intro c h
      show (runResearchLoop oracle toolExec k (researchLoopStep oracle toolExec c)).1 ≠
        LoopNode.supervisor
      apply ih
      rcases c with ⟨node, msgs⟩
      cases node with
      | researchAgent => simp [researchLoopStep, hOracle msgs]
      | researchToolNode => simp [researchLoopStep]
      | supervisor => exact absurd rfl h

/-- Witness for C3 (amended): with the concrete always-tool oracle, after
20 steps from the agent node the loop has still not reached the
supervisor. -/
theorem c3_no_iteration_cap_witness :
    (runResearchLoop alwaysToolOracle constToolExec 20
        (LoopNode.researchAgent, [])).1 ≠ LoopNode.supervisor :=
  c3_no_iteration_cap alwaysToolOracle constToolExec (fun _ => rfl) 20
    (LoopNode.researchAgent, []) (by decide)

/-- Folding `push` over a list of requests appends them in order. -/
theorem foldl_addFeatureRequest (l : List FeatureRequest) :
    ∀ acc : List FeatureRequest, l.foldl addFeatureRequest acc = acc ++ l := by
  induction l with
  | nil => intro acc; simp
  | cons x xs ih =>
      intro acc
      simp [addFeatureRequest, ih]

/-- C6: after appending N requests to an empty queue, `getAllFeatureRequests`
returns exactly those N requests in append order; and for `k ≤ N`,
`getRecentFeatureRequests k` returns `k` items, ordered descending by
creation timestamp, which together with the remaining items form the whole
queue and each of which has a timestamp at least as large as every remaining
item. -/
theorem c6_feature_queue (items : List FeatureRequest) (k : Nat)
    (hk : k ≤ items.length) :
    getAllFeatureRequests (items.foldl addFeatureRequest clearFeatureRequests) = items ∧
    (getRecentFeatureRequests items k).length = k ∧
    List.Sorted tsDesc (getRecentFeatureRequests items k) ∧
    ∃ rest, (getRecentFeatureRequests items k ++ rest).Perm items ∧
      ∀ a ∈ getRecentFeatureRequests items k, ∀ b ∈ rest,
        b.timestamp ≤ a.timestamp := by
  refine ⟨?_, ?_, ?_, ?_⟩
  · simp [getAllFeatureRequests, clearFeatureRequests, foldl_addFeatureRequest]
  · simp only [getRecentFeatureRequests, List.length_take, List.length_insertionSort]
    omega
  · exact List.Pairwise.sublist (List.take_sublist k _)
      (List.sorted_insertionSort tsDesc items)
  · refine ⟨(List.insertionSort tsDesc items).drop k, ?_, ?_⟩
    · rw [getRecentFeatureRequests, List.take_append_drop]
      exact List.perm_insertionSort tsDesc items
    · intro a ha b hb
      have hs := List.sorted_insertionSort tsDesc items
      rw [← List.take_append_drop k (List.insertionSort tsDesc items)] at hs
      exact (List.pairwise_append.mp hs).2.2 a ha b hb

/-- A sample feature request created first (earlier timestamp). -/
def frSampleA : FeatureRequest :=
  { title := "dark mode", description := "add a dark theme"
    userGoal := "reduce eye strain", exampleUseCase := "night use", timestamp := 100 }

/-- A sample feature request created second (later timestamp). -/
def frSampleB : FeatureRequest :=
  { title := "offline mode", description := "work without network"
    userGoal := "use on a plane", exampleUseCase := "travel", timestamp := 200 }

/-- Witness for C6 with two appended requests and `k = 1`. -/
theorem c6_feature_queue_witness :
    1 ≤ ([frSampleA, frSampleB] : List FeatureRequest).length ∧
    getAllFeatureRequests
      (([frSampleA, frSampleB] : List FeatureRequest).foldl addFeatureRequest
        clearFeatureRequests) = [frSampleA, frSampleB] ∧
    (getRecentFeatureRequests [frSampleA, frSampleB] 1).length = 1 :=
  ⟨by decide,
   (c6_feature_queue [frSampleA, frSampleB] 1 (by decide)).1,
   (c6_feature_queue [frSampleA, frSampleB] 1 (by decide)).2.1⟩

/-- C8 counterexample: the query `"bananas"` yields the extracted keyword
`bananas`, which matches nothing in the knowledge base, yet the lookup does
NOT return the generic outside-known-domain pair — it returns the mock
external-API pair instead.  The generic pair is reserved for queries from
which no keyword is extracted at all. -/
theorem c8_no_match_counterexample :
    extractKeywords "bananas" = ["bananas"] ∧
    knowledgeBase "bananas" = none ∧
    performResearch "bananas" ≠ genericPair ∧
    performResearch "bananas" = externalPair "bananas" := by
  refine ⟨by decide, by decide, by decide, by decide⟩

/-- C8 amended: the research lookup returns the generic two-snippet
outside-known-domain pair exactly when no keyword is extracted from the
query; when keywords are extracted and at least one matches the internal
knowledge base it returns the matching prefixed knowledge-base snippets;
and when keywords are extracted but none matches it returns the two-snippet
mock external-API pair built from the first keyword. -/
theorem c8_research_lookup (q : String) :
    (extractKeywords q = [] → performResearch q = genericPair) ∧
    (internalResults q ≠ [] → performResearch q = internalResults q) ∧
    (∀ k ks, extractKeywords q = k :: ks → internalResults q = [] →
      performResearch q = externalPair k) := by
  refine ⟨?_, ?_, ?_⟩
  · intro h
    have hi : internalResults q = [] := by simp [internalResults, h]
    simp [performResearch, h, hi]
  · intro h
    cases hk : extractKeywords q with
    | nil =>
        exact absurd (by simp [internalResults, hk]) h
    | cons k ks =>
        have h0 : ¬(internalResults q).length = 0 := by
          simpa [List.length_eq_zero] using h
        simp [performResearch, hk, h0]
  · intro k ks h1 h2
    simp [performResearch, h1, h2, externalPair]

/-- Witness for C8 at three concrete queries: `"hi"` extracts no keywords
and degrades to the generic pair; `"What causes climate change?"` matches
the knowledge base; `"bananas"` extracts a keyword with no match and gets
the external-API pair. -/
theorem c8_research_lookup_witness :
    extractKeywords "hi" = [] ∧
    performResearch "hi" = genericPair ∧
    internalResults "What causes climate change?" ≠ [] ∧
    performResearch "What causes climate change?" =
      internalResults "What causes climate change?" ∧
    performResearch "bananas" = externalPair "bananas" :=
  ⟨by decide,
   (c8_research_lookup "hi").1 (by decide),
   by decide,
   (c8_research_lookup "What causes climate change?").2.1 (by decide),
   (c8_research_lookup "bananas").2.2 "bananas" [] (by decide) (by decide)⟩

end PersonalAssistantAgents
